import Mathlib

/-!
# esp_multichannel_toggle: relay controller core

A shallow embedding of `examples/esp_multichannel_toggle/main.c`.

* The global table `homekit_config[NO_CHARACTERISTICS]` is a function from
  `Fin NO_CHARACTERISTICS` to channel descriptors; a callback that mutates the
  table takes it as an argument and returns the new table.
* Calls into the SDK, FreeRTOS and the HomeKit / button / toggle libraries are
  recorded, in program order, as a list of `Effect`s.  `INFO` / `DEBUG` log
  lines are not recorded.
* `uint8_t` is `Fin 256`, `int` is `Int`, `unsigned int` / `uint32_t` is `Nat`
  reduced modulo `2 ^ 32` where a conversion happens.
* `portTICK_PERIOD_MS` comes from the FreeRTOS port headers and is a parameter
  of every function that sleeps.
-/

namespace EspMultichannelToggle

/-! ## Constants -/

/-- The reset threshold: `#define NO_LONG_PRESS_RESET_CONFIG 2`. -/
def NO_LONG_PRESS_RESET_CONFIG : Int := 2

/-- The channel count: `#define NO_CHARACTERISTICS 4`. -/
abbrev NO_CHARACTERISTICS : Nat := 4

/-- The LED pin: `const int led_gpio = 0`. -/
def led_gpio : Int := 0

/-- The configuration button pin: `const int config_button_gpio = 14`. -/
def config_button_gpio : Int := 14

/-! ## Data model -/

/-- An 8-bit pin number as the input libraries hand it to a callback. -/
abbrev uint8_t := Fin 256

/-- The part of `homekit_value_t` the program reads and writes. -/
structure homekit_value_t where
  bool_value : Bool
  deriving DecidableEq, Repr

/-- The part of `homekit_characteristic_t` the program reads and writes. -/
structure homekit_characteristic_t where
  value : homekit_value_t
  deriving DecidableEq, Repr

/-- One row of the channel table (`homekit_config_t`). -/
structure homekit_config_t where
  default_val : Bool
  switch_on : homekit_characteristic_t
  relay_gpio : Int
  toggle_gpio : Int
  button_gpio : Int
  deriving DecidableEq, Repr

/-- The channel table, `homekit_config_t homekit_config[NO_CHARACTERISTICS]`. -/
abbrev Table := Fin NO_CHARACTERISTICS → homekit_config_t

/-- Modelled from the spec: `button.h` is not part of the sources; the spec gives
the event kinds a button reports as single press, long press and unknown. -/
inductive button_event_t where
  | button_event_single_press
  | button_event_long_press
  | button_event_unknown
  deriving DecidableEq, Repr

/-- A `homekit_characteristic_t *`: either the address of the `switch_on` field of
a table row, or the address of some other characteristic. -/
inductive CharacteristicPtr where
  | config_switch_on (idx : Fin NO_CHARACTERISTICS)
  | foreign (id : Nat)
  deriving DecidableEq, Repr

/-- The task functions handed to `xTaskCreate`. -/
inductive TaskFn where
  | led_helper_task
  | reset_configuration_task
  deriving DecidableEq, Repr

/-- The externally visible calls, recorded in program order. -/
inductive Effect where
  | gpio_write (gpio : Int) (level : Nat)
  | vTaskDelay (ticks : Nat)
  | vTaskDelete
  | xTaskCreate (task : TaskFn) (pvParam : Nat)
  | homekit_characteristic_notify (ch : CharacteristicPtr) (value : homekit_value_t)
  | wifi_config_reset
  | homekit_server_reset
  | sdk_system_restart
  | button_create (gpio : Int)
  | toggle_create (gpio : Int)
  deriving DecidableEq, Repr

/-- The static initialiser of `homekit_config`. -/
def homekit_config : Table := fun idx =>
  match idx with
  | ⟨0, _⟩ => ⟨false, ⟨⟨false⟩⟩, 0, 4, -1⟩
  | ⟨1, _⟩ => ⟨false, ⟨⟨false⟩⟩, 2, 5, -1⟩
  | ⟨2, _⟩ => ⟨false, ⟨⟨false⟩⟩, 15, 12, -1⟩
  | ⟨_, _⟩ => ⟨false, ⟨⟨false⟩⟩, 16, 13, -1⟩

/-! ## GPIO and LED helpers -/

/-- The relay write, compiled with `RELAY_ACTIVE_LOW` defined:
`gpio_write(gpio, on ? 0 : 1)`. -/
def relay_write (gpio : Int) (on_ : Bool) : List Effect :=
  [Effect.gpio_write gpio (if on_ then 0 else 1)]

/-- The LED write: `gpio_write(led_gpio, on ? 0 : 1)`. -/
def led_write (on_ : Bool) : List Effect :=
  [Effect.gpio_write led_gpio (if on_ then 0 else 1)]

/-- The loop of `led_blink`, with the number of iterations still to run. -/
def led_blink_loop (portTICK_PERIOD_MS time : Nat) : Nat → List Effect
  | 0 => []
  | n + 1 =>
    led_write true ++ [Effect.vTaskDelay ((time / 2) / portTICK_PERIOD_MS)] ++
    led_write false ++ [Effect.vTaskDelay ((time / 2) / portTICK_PERIOD_MS)] ++
    led_blink_loop portTICK_PERIOD_MS time n

/-- The blink routine `led_blink(unsigned int time, unsigned char no_blink)`; the
second argument is converted to `unsigned char`. -/
def led_blink (portTICK_PERIOD_MS time no_blink : Nat) : List Effect :=
  led_blink_loop portTICK_PERIOD_MS time (no_blink % 256)

/-! ## Reset sequencer -/

/-- The body of the detached reset job. -/
def reset_configuration_task (portTICK_PERIOD_MS : Nat) : List Effect :=
  led_blink portTICK_PERIOD_MS 200 3 ++
  [Effect.wifi_config_reset,
   Effect.vTaskDelay (1000 / portTICK_PERIOD_MS),
   Effect.homekit_server_reset,
   Effect.vTaskDelay (1000 / portTICK_PERIOD_MS),
   Effect.sdk_system_restart,
   Effect.vTaskDelete]

/-- The reset trigger: spawns `reset_configuration_task` with a `NULL` parameter. -/
def reset_configuration : List Effect :=
  [Effect.xTaskCreate TaskFn.reset_configuration_task 0]

/-! ## Feedback job -/

/-- The identify loop of `led_helper_task`, `for (int i=0; i<3; i++)`, with the
number of iterations still to run. -/
def led_helper_identify_loop (portTICK_PERIOD_MS : Nat) : Nat → List Effect
  | 0 => []
  | n + 1 =>
    led_blink portTICK_PERIOD_MS 400 2 ++
    [Effect.vTaskDelay (500 / portTICK_PERIOD_MS)] ++
    led_helper_identify_loop portTICK_PERIOD_MS n

/-- The body of the detached feedback job; `cmd` is `(uint32_t)pvParam`. -/
def led_helper_task (portTICK_PERIOD_MS pvParam : Nat) : List Effect :=
  let cmd := pvParam % 4294967296
  (if cmd = 0 then
    led_helper_identify_loop portTICK_PERIOD_MS 3 ++ led_write false
  else
    let no_long_press := cmd >>> 1
    led_blink portTICK_PERIOD_MS 2000 no_long_press ++
    led_write (if cmd &&& 1 ≠ 0 then true else false)) ++
  [Effect.vTaskDelete]

/-! ## Protocol write callback -/

/-- The search loop of `switch_on_callback`,
`for(idx=0;idx<NO_CHARACTERISTICS;idx++) if(_ch == &homekit_config[idx].switch_on) break;`
with the number of iterations still allowed; the result is the final `idx`. -/
def switch_on_scan (_ch : CharacteristicPtr) : Nat → Nat → Nat
  | 0, idx => idx
  | fuel + 1, idx =>
    if h : idx < NO_CHARACTERISTICS then
      if _ch = CharacteristicPtr.config_switch_on ⟨idx, h⟩ then idx
      else switch_on_scan _ch fuel (idx + 1)
    else idx

/-- The setter the protocol layer calls on a remote write.  The table is returned
as it was passed: the function does not assign to it. -/
def switch_on_callback (cfg : Table) (_ch : CharacteristicPtr) (on_ : homekit_value_t) :
    Table × List Effect :=
  let idx := switch_on_scan _ch NO_CHARACTERISTICS 0
  if h : idx < NO_CHARACTERISTICS then
    (cfg, relay_write (cfg ⟨idx, h⟩).relay_gpio on_.bool_value)
  else
    (cfg, [])

/-! ## Configuration button -/

/-- The configuration button callback; the `static int no_long_press` is passed in
and returned.  The task parameter `(void*)(no_long_press<<1)` is read back by the
job as a `uint32_t`. -/
def config_button_callback (_gpio : uint8_t) (event : button_event_t) (no_long_press : Int) :
    Int × List Effect :=
  match event with
  | button_event_t.button_event_single_press => (0, [])
  | button_event_t.button_event_long_press =>
    let no_long_press := no_long_press + 1
    let spawn := [Effect.xTaskCreate TaskFn.led_helper_task
      ((no_long_press <<< (1 : Int)) % 4294967296).toNat]
    if no_long_press ≥ NO_LONG_PRESS_RESET_CONFIG then
      (0, spawn ++ reset_configuration)
    else
      (no_long_press, spawn)
  | button_event_t.button_event_unknown => (no_long_press, [])

/-! ## Channel input callbacks -/

/-- The search loop of `button_callback`,
`for(idx=0;idx<NO_CHARACTERISTICS;idx++) if(gpio == homekit_config[idx].button_gpio) break;`
with the number of iterations still allowed; the result is the final `idx`. -/
def button_scan (cfg : Table) (gpio : uint8_t) : Nat → Nat → Nat
  | 0, idx => idx
  | fuel + 1, idx =>
    if h : idx < NO_CHARACTERISTICS then
      if (gpio.val : Int) = (cfg ⟨idx, h⟩).button_gpio then idx
      else button_scan cfg gpio fuel (idx + 1)
    else idx

/-- The channel button callback: the two press kinds fall into the same case,
which negates the cell of row `idx`, writes the relay from the new cell value and
notifies with the new cell value. -/
def button_callback (cfg : Table) (gpio : uint8_t) (event : button_event_t) :
    Table × List Effect :=
  let idx := button_scan cfg gpio NO_CHARACTERISTICS 0
  if h : idx < NO_CHARACTERISTICS then
    match event with
    | button_event_t.button_event_single_press
    | button_event_t.button_event_long_press =>
      let cfg1 : Table := Function.update cfg ⟨idx, h⟩
        { cfg ⟨idx, h⟩ with
          switch_on := ⟨⟨!(cfg ⟨idx, h⟩).switch_on.value.bool_value⟩⟩ }
      (cfg1,
       relay_write (cfg1 ⟨idx, h⟩).relay_gpio (cfg1 ⟨idx, h⟩).switch_on.value.bool_value ++
       [Effect.homekit_characteristic_notify (CharacteristicPtr.config_switch_on ⟨idx, h⟩)
          (cfg1 ⟨idx, h⟩).switch_on.value])
    | button_event_t.button_event_unknown => (cfg, [])
  else
    (cfg, [])

/-- The search loop of `toggle_callback`,
`for(idx=0;idx<NO_CHARACTERISTICS;idx++) if(gpio == homekit_config[idx].toggle_gpio) break;`
with the number of iterations still allowed; the result is the final `idx`. -/
def toggle_scan (cfg : Table) (gpio : uint8_t) : Nat → Nat → Nat
  | 0, idx => idx
  | fuel + 1, idx =>
    if h : idx < NO_CHARACTERISTICS then
      if (gpio.val : Int) = (cfg ⟨idx, h⟩).toggle_gpio then idx
      else toggle_scan cfg gpio fuel (idx + 1)
    else idx

/-- The toggle switch callback: negates the cell of row `idx`, writes the relay
from the new cell value and notifies with the new cell value. -/
def toggle_callback (cfg : Table) (gpio : uint8_t) : Table × List Effect :=
  let idx := toggle_scan cfg gpio NO_CHARACTERISTICS 0
  if h : idx < NO_CHARACTERISTICS then
    let cfg1 : Table := Function.update cfg ⟨idx, h⟩
      { cfg ⟨idx, h⟩ with
        switch_on := ⟨⟨!(cfg ⟨idx, h⟩).switch_on.value.bool_value⟩⟩ }
    (cfg1,
     relay_write (cfg1 ⟨idx, h⟩).relay_gpio (cfg1 ⟨idx, h⟩).switch_on.value.bool_value ++
     [Effect.homekit_characteristic_notify (CharacteristicPtr.config_switch_on ⟨idx, h⟩)
        (cfg1 ⟨idx, h⟩).switch_on.value])
  else
    (cfg, [])

/-! ## Start-up registration of the channel inputs -/

/-- The duplicate search of `user_init`,
`for(int j=0;j<i;j++) if (key == pins[j]) { found = true; break; }`
with the number of iterations still allowed; the result is the final `found`. -/
def pin_found (pins : Fin NO_CHARACTERISTICS → Int) (key : Int) (i : Fin NO_CHARACTERISTICS) :
    Nat → Nat → Bool
  | 0, _ => false
  | fuel + 1, j =>
    if h : j < i.val then
      if key = pins ⟨j, Nat.lt_trans h i.isLt⟩ then true
      else pin_found pins key i fuel (j + 1)
    else false

/-- The button half of one iteration of the registration loop: the new `buttons`
array and the calls made. -/
def user_init_button_step (cfg : Table) (i : Fin NO_CHARACTERISTICS)
    (buttons : Fin NO_CHARACTERISTICS → Int) : (Fin NO_CHARACTERISTICS → Int) × List Effect :=
  let button_found := pin_found buttons (cfg i).button_gpio i i.val 0
  if !button_found then
    let buttons := Function.update buttons i (cfg i).button_gpio
    if buttons i ≠ -1 then
      (buttons, [Effect.button_create (buttons i)])
    else
      (buttons, [])
  else
    (buttons, [])

/-- The toggle half of one iteration of the registration loop: the new `toggles`
array and the calls made. -/
def user_init_toggle_step (cfg : Table) (i : Fin NO_CHARACTERISTICS)
    (toggles : Fin NO_CHARACTERISTICS → Int) : (Fin NO_CHARACTERISTICS → Int) × List Effect :=
  let toggle_found := pin_found toggles (cfg i).toggle_gpio i i.val 0
  if !toggle_found then
    let toggles := Function.update toggles i (cfg i).toggle_gpio
    if toggles i ≠ -1 then
      (toggles, [Effect.toggle_create (toggles i)])
    else
      (toggles, [])
  else
    (toggles, [])

/-- The registration loop of `user_init`, `for(int i=0;i<NO_CHARACTERISTICS;i++)`,
with the number of iterations still allowed.  The result lists, iteration by
iteration, the calls that iteration made. -/
def user_init_loop (cfg : Table) :
    Nat → Nat → (Fin NO_CHARACTERISTICS → Int) → (Fin NO_CHARACTERISTICS → Int) →
    List (List Effect)
  | 0, _, _, _ => []
  | fuel + 1, i, buttons, toggles =>
    if h : i < NO_CHARACTERISTICS then
      let b := user_init_button_step cfg ⟨i, h⟩ buttons
      let t := user_init_toggle_step cfg ⟨i, h⟩ toggles
      (b.2 ++ t.2) :: user_init_loop cfg fuel (i + 1) b.1 t.1
    else []

/-- The per-channel registration loop of `user_init`, started with
`buttons = {-1,-1,-1,-1}` and `toggles = {-1,-1,-1,-1}`. -/
def user_init_registration (cfg : Table) : List (List Effect) :=
  user_init_loop cfg NO_CHARACTERISTICS 0 (fun _ => -1) (fun _ => -1)

/-! ## Drivers and reference patterns used by the statements -/

/-- Delivers a sequence of events, first to last, to `config_button_callback`,
threading the counter; returns the final counter and the calls made. -/
def config_button_run (gpio : uint8_t) : List button_event_t → Int → Int × List Effect
  | [], no_long_press => (no_long_press, [])
  | event :: rest, no_long_press =>
    let r := config_button_callback gpio event no_long_press
    let r1 := config_button_run gpio rest r.1
    (r1.1, r.2 ++ r1.2)

/-- One blink of the feedback pattern as the spec words it: LED on, half of a
2000 ms period, LED off, the other half. -/
def feedback_blink (portTICK_PERIOD_MS : Nat) : List Effect :=
  [Effect.gpio_write led_gpio 0, Effect.vTaskDelay (1000 / portTICK_PERIOD_MS),
   Effect.gpio_write led_gpio 1, Effect.vTaskDelay (1000 / portTICK_PERIOD_MS)]

/-- The decoded feedback pattern as the spec words it: `count` blinks, then the
LED driven to `bit` (on, level 0, iff `bit = 1`), then the job ends. -/
def blink_then_settle (portTICK_PERIOD_MS count bit : Nat) : List Effect :=
  (List.replicate count (feedback_blink portTICK_PERIOD_MS)).flatten ++
  [Effect.gpio_write led_gpio (if bit = 1 then 0 else 1), Effect.vTaskDelete]

/-- One blink of the identify pattern as the spec words it: LED on for 200 ms, LED
off for 200 ms (a 400 ms period). -/
def identify_blink (portTICK_PERIOD_MS : Nat) : List Effect :=
  [Effect.gpio_write led_gpio 0, Effect.vTaskDelay (200 / portTICK_PERIOD_MS),
   Effect.gpio_write led_gpio 1, Effect.vTaskDelay (200 / portTICK_PERIOD_MS)]

/-- The identify pattern as the spec words it: three rounds of two identify blinks
and a 500 ms pause, then the LED driven off, then the job ends. -/
def identify_pattern (portTICK_PERIOD_MS : Nat) : List Effect :=
  (List.replicate 3
    (identify_blink portTICK_PERIOD_MS ++ identify_blink portTICK_PERIOD_MS ++
     [Effect.vTaskDelay (500 / portTICK_PERIOD_MS)])).flatten ++
  [Effect.gpio_write led_gpio 1, Effect.vTaskDelete]

/-- A table in which rows 0 and 1 share toggle pin 4 (the static table with the
toggle pin of row 1 changed from 5 to 4). -/
def shared_toggle_config : Table := fun idx =>
  match idx with
  | ⟨0, _⟩ => ⟨false, ⟨⟨false⟩⟩, 0, 4, -1⟩
  | ⟨1, _⟩ => ⟨false, ⟨⟨false⟩⟩, 2, 4, -1⟩
  | ⟨2, _⟩ => ⟨false, ⟨⟨false⟩⟩, 15, 12, -1⟩
  | ⟨_, _⟩ => ⟨false, ⟨⟨false⟩⟩, 16, 13, -1⟩

/-- A table with button pins: rows 0 and 1 have buttons 9 and 10, rows 2 and 3
share button 11; row 1 starts switched on. -/
def button_config : Table := fun idx =>
  match idx with
  | ⟨0, _⟩ => ⟨false, ⟨⟨false⟩⟩, 0, 4, 9⟩
  | ⟨1, _⟩ => ⟨false, ⟨⟨true⟩⟩, 2, 5, 10⟩
  | ⟨2, _⟩ => ⟨false, ⟨⟨false⟩⟩, 15, 12, 11⟩
  | ⟨_, _⟩ => ⟨false, ⟨⟨false⟩⟩, 16, 13, 11⟩

/-- The three statements both input callbacks run on the row they resolved,
gathered for the proofs: negate the cell, write the relay from the new cell value,
notify with the new cell value. -/
def flip_channel (cfg : Table) (idx : Fin NO_CHARACTERISTICS) : Table × List Effect :=
  let cfg1 : Table := Function.update cfg idx
    { cfg idx with switch_on := ⟨⟨!(cfg idx).switch_on.value.bool_value⟩⟩ }
  (cfg1,
   relay_write (cfg1 idx).relay_gpio (cfg1 idx).switch_on.value.bool_value ++
   [Effect.homekit_characteristic_notify (CharacteristicPtr.config_switch_on idx)
      (cfg1 idx).switch_on.value])

/-- The table after row `c` alone has had its cell negated. -/
def with_cell_negated (cfg : Table) (c : Fin NO_CHARACTERISTICS) : Table := fun idx =>
  if idx = c then
    { cfg idx with switch_on := ⟨⟨!(cfg idx).switch_on.value.bool_value⟩⟩ }
  else cfg idx

/-- The two calls of one flip of row `c`, given the cell value `new_value` the row
ends with: the relay write at the active-low level for `new_value` (level 0 when
true, level 1 when false), then the notification for the row carrying
`new_value`. -/
def flip_trace (cfg : Table) (c : Fin NO_CHARACTERISTICS) (new_value : Bool) : List Effect :=
  [Effect.gpio_write (cfg c).relay_gpio (if new_value = true then 0 else 1),
   Effect.homekit_characteristic_notify (CharacteristicPtr.config_switch_on c) ⟨new_value⟩]

/-- The shape the three search loops share: walk `idx` upward while it is below
`NO_CHARACTERISTICS` and stop at the first row satisfying `hit`. -/
def first_hit_scan (hit : Fin NO_CHARACTERISTICS → Bool) : Nat → Nat → Nat
  | 0, idx => idx
  | fuel + 1, idx =>
    if h : idx < NO_CHARACTERISTICS then
      if hit ⟨idx, h⟩ then idx
      else first_hit_scan hit fuel (idx + 1)
    else idx

/-- The shape the button half and the toggle half of a registration iteration
share: `pins` gives each row its pin of the kind at hand, `create` is the
registration call of that kind, `seen` is the local array of pins claimed so far. -/
def register_step (create : Int → Effect) (pins : Fin NO_CHARACTERISTICS → Int)
    (i : Fin NO_CHARACTERISTICS) (seen : Fin NO_CHARACTERISTICS → Int) :
    (Fin NO_CHARACTERISTICS → Int) × List Effect :=
  let found := pin_found seen (pins i) i i.val 0
  if !found then
    let seen := Function.update seen i (pins i)
    if seen i ≠ -1 then
      (seen, [create (seen i)])
    else
      (seen, [])
  else
    (seen, [])

/-- Row `i` is the first row, in table order, to carry its pin. -/
def first_use (pins : Fin NO_CHARACTERISTICS → Int) (i : Fin NO_CHARACTERISTICS) : Prop :=
  ∀ j, j < i → pins j ≠ pins i

instance first_use_decidable (pins : Fin NO_CHARACTERISTICS → Int)
    (i : Fin NO_CHARACTERISTICS) : Decidable (first_use pins i) := by
  unfold first_use
  infer_instance

/-- The registration calls iteration `i` is to make for one kind of pin: one call
when row `i` has a pin and is the first row to carry it, none otherwise. -/
def expected_calls (create : Int → Effect) (pins : Fin NO_CHARACTERISTICS → Int)
    (i : Fin NO_CHARACTERISTICS) : List Effect :=
  if pins i ≠ -1 ∧ first_use pins i then [create (pins i)] else []

/-- The local array of claimed pins once the iterations below `i` have run: a row
below `i` that was the first to carry its pin holds that pin, every other entry
holds `-1`. -/
def seen_after (pins : Fin NO_CHARACTERISTICS → Int) (i : Nat)
    (seen : Fin NO_CHARACTERISTICS → Int) : Prop :=
  ∀ j : Fin NO_CHARACTERISTICS,
    seen j = if j.val < i ∧ first_use pins j then pins j else -1

/-- The calls iteration `i` of the registration loop is to make, button half
first; no calls from `NO_CHARACTERISTICS` on. -/
def expected_iteration (cfg : Table) (i : Nat) : List Effect :=
  if h : i < NO_CHARACTERISTICS then
    expected_calls Effect.button_create (fun j => (cfg j).button_gpio) ⟨i, h⟩ ++
    expected_calls Effect.toggle_create (fun j => (cfg j).toggle_gpio) ⟨i, h⟩
  else []

/-! ## Reset sequencer: order of effects -/

/-- C8: the effect trace of `reset_configuration_task` is exactly three blinks of
200 ms period (LED on, 100 ms, LED off, 100 ms), `wifi_config_reset`, a 1000 ms
delay, `homekit_server_reset`, a 1000 ms delay, `sdk_system_restart`, task
deletion; each wipe and the restart occur exactly once. A delay of `t` ms is the
call `vTaskDelay(t / portTICK_PERIOD_MS)`. -/
theorem reset_configuration_task_trace (portTICK_PERIOD_MS : Nat) :
    reset_configuration_task portTICK_PERIOD_MS =
      [Effect.gpio_write led_gpio 0, Effect.vTaskDelay (100 / portTICK_PERIOD_MS),
       Effect.gpio_write led_gpio 1, Effect.vTaskDelay (100 / portTICK_PERIOD_MS),
       Effect.gpio_write led_gpio 0, Effect.vTaskDelay (100 / portTICK_PERIOD_MS),
       Effect.gpio_write led_gpio 1, Effect.vTaskDelay (100 / portTICK_PERIOD_MS),
       Effect.gpio_write led_gpio 0, Effect.vTaskDelay (100 / portTICK_PERIOD_MS),
       Effect.gpio_write led_gpio 1, Effect.vTaskDelay (100 / portTICK_PERIOD_MS),
       Effect.wifi_config_reset,
       Effect.vTaskDelay (1000 / portTICK_PERIOD_MS),
       Effect.homekit_server_reset,
       Effect.vTaskDelay (1000 / portTICK_PERIOD_MS),
       Effect.sdk_system_restart,
       Effect.vTaskDelete] ∧
    (reset_configuration_task portTICK_PERIOD_MS).count Effect.wifi_config_reset = 1 ∧
    (reset_configuration_task portTICK_PERIOD_MS).count Effect.homekit_server_reset = 1 ∧
    (reset_configuration_task portTICK_PERIOD_MS).count Effect.sdk_system_restart = 1 := by
  refine ⟨rfl, ?_, ?_, ?_⟩ <;>
    simp [reset_configuration_task, led_blink, led_blink_loop, led_write, List.count_cons]

/-! ## Feedback job: command decoding -/

/-- The loop of `led_blink` at a 2000 ms period is `n` copies of one feedback
blink. -/
theorem led_blink_loop_eq_replicate (portTICK_PERIOD_MS n : Nat) :
    led_blink_loop portTICK_PERIOD_MS 2000 n =
      (List.replicate n (feedback_blink portTICK_PERIOD_MS)).flatten := by
  induction n with
  | zero => rfl
  | succ k ih =>
    simp [led_blink_loop, List.replicate_succ, ih, feedback_blink, led_write, led_gpio]

/-- C4, as stated, fails at `count = 0`, `bit = 0`: the command is `0`, which the
job reads as the identify pattern; it switches the LED on six times rather than
zero times, so its trace is not the decoded pattern for `(0, 0)`. -/
theorem led_helper_task_command_zero_is_identify :
    led_helper_task 10 ((0 <<< 1) ||| 0) ≠ blink_then_settle 10 0 0 ∧
    (led_helper_task 10 ((0 <<< 1) ||| 0)).count (Effect.gpio_write led_gpio 0) = 6 ∧
    (blink_then_settle 10 0 0).count (Effect.gpio_write led_gpio 0) = 0 := by
  decide

/-- For `count` in `[0,7]` and `bit` in `{0,1}` not both zero, the job run with
`(count << 1) | bit` makes `count` feedback blinks, then drives the LED to `bit`,
then ends. -/
theorem led_helper_task_decodes (portTICK_PERIOD_MS count bit : Nat)
    (hcount : count ≤ 7) (hbit : bit ≤ 1) (hne : count ≠ 0 ∨ bit ≠ 0) :
    led_helper_task portTICK_PERIOD_MS ((count <<< 1) ||| bit) =
      blink_then_settle portTICK_PERIOD_MS count bit := by
  have hdec : ((count <<< 1) ||| bit) % 4294967296 ≠ 0 ∧
      (((count <<< 1) ||| bit) % 4294967296) >>> 1 = count ∧
      ((((count <<< 1) ||| bit) % 4294967296) &&& 1) = bit := by
    interval_cases count <;> interval_cases bit <;> simp_all
  obtain ⟨h0, hshift, hand⟩ := hdec
  have hcount256 : count % 256 = count := Nat.mod_eq_of_lt (by omega)
  simp only [led_helper_task, h0, if_false, hshift, hand, led_blink, hcount256,
    led_blink_loop_eq_replicate, blink_then_settle, led_write]
  interval_cases bit <;> simp

/-- The job run with command `0` makes the identify pattern: three rounds of two
400 ms blinks and a 500 ms pause, then LED off, then the job ends. -/
theorem led_helper_task_identify (portTICK_PERIOD_MS : Nat) :
    led_helper_task portTICK_PERIOD_MS 0 = identify_pattern portTICK_PERIOD_MS := by
  simp [led_helper_task, led_helper_identify_loop, led_blink, led_blink_loop, led_write,
    identify_pattern, identify_blink, List.replicate]

/-- C4, amended: for `count` in `[0,7]` and `bit` in `{0,1}` not both zero, the job
run with `(count << 1) | bit` makes exactly `count` blinks of 2000 ms period, then
drives the LED to `bit` as its final LED write, then ends. For `count = 0` and
`bit = 0` the command is `0`, the identify command: the job makes three rounds of
two 400 ms blinks and a 500 ms pause, then drives the LED off, then ends. -/
theorem led_helper_task_round_trip (portTICK_PERIOD_MS : Nat) :
    (∀ count bit : Nat, count ≤ 7 → bit ≤ 1 → (count ≠ 0 ∨ bit ≠ 0) →
      led_helper_task portTICK_PERIOD_MS ((count <<< 1) ||| bit) =
        blink_then_settle portTICK_PERIOD_MS count bit) ∧
    led_helper_task portTICK_PERIOD_MS ((0 <<< 1) ||| 0) =
      (List.replicate 3
        ([Effect.gpio_write led_gpio 0, Effect.vTaskDelay (200 / portTICK_PERIOD_MS),
          Effect.gpio_write led_gpio 1, Effect.vTaskDelay (200 / portTICK_PERIOD_MS),
          Effect.gpio_write led_gpio 0, Effect.vTaskDelay (200 / portTICK_PERIOD_MS),
          Effect.gpio_write led_gpio 1, Effect.vTaskDelay (200 / portTICK_PERIOD_MS),
          Effect.vTaskDelay (500 / portTICK_PERIOD_MS)])).flatten ++
      [Effect.gpio_write led_gpio 1, Effect.vTaskDelete] :=
  ⟨fun count bit hcount hbit hne =>
     led_helper_task_decodes portTICK_PERIOD_MS count bit hcount hbit hne,
   led_helper_task_identify portTICK_PERIOD_MS⟩

/-- Witness for C4 at the command the second long press spawns (`count = 2`,
`bit = 0`, ten-millisecond ticks), with the identify pattern at command `0`. -/
theorem led_helper_task_round_trip_witness :
    ((2 : Nat) ≤ 7 ∧ (0 : Nat) ≤ 1 ∧ ((2 : Nat) ≠ 0 ∨ (0 : Nat) ≠ 0) ∧
      led_helper_task 10 ((2 <<< 1) ||| 0) = blink_then_settle 10 2 0) ∧
    led_helper_task 10 ((0 <<< 1) ||| 0) = identify_pattern 10 :=
  ⟨⟨by decide, by decide, by decide,
    (led_helper_task_round_trip 10).1 2 0 (by decide) (by decide) (by decide)⟩,
   (led_helper_task_round_trip 10).2⟩

/-! ## Configuration button: reset counting -/

/-- A long press with the counter at `0` leaves it at `1` and spawns the feedback
job with command `2`. -/
theorem config_button_long_press_at_zero (gpio : uint8_t) :
    config_button_callback gpio button_event_t.button_event_long_press 0 =
      (1, [Effect.xTaskCreate TaskFn.led_helper_task 2]) := by
  simp [config_button_callback, NO_LONG_PRESS_RESET_CONFIG]
  decide

/-- A long press with the counter at `1` spawns the feedback job with command `4`,
then the reset job, and leaves the counter at `0`. -/
theorem config_button_long_press_at_one (gpio : uint8_t) :
    config_button_callback gpio button_event_t.button_event_long_press 1 =
      (0, [Effect.xTaskCreate TaskFn.led_helper_task 4,
           Effect.xTaskCreate TaskFn.reset_configuration_task 0]) := by
  simp [config_button_callback, NO_LONG_PRESS_RESET_CONFIG, reset_configuration]
  decide

/-- A single press zeroes the counter and makes no call. -/
theorem config_button_single_press (gpio : uint8_t) (no_long_press : Int) :
    config_button_callback gpio button_event_t.button_event_single_press no_long_press =
      (0, []) := rfl

/-- An event of another kind changes nothing and makes no call. -/
theorem config_button_unknown (gpio : uint8_t) (no_long_press : Int) :
    config_button_callback gpio button_event_t.button_event_unknown no_long_press =
      (no_long_press, []) := rfl

/-- From a counter of `0` or `1`, one event leaves the counter at `0` or `1`, and
every feedback job it spawns carries command `2` or `4`. -/
theorem config_button_step_invariant (gpio : uint8_t) (event : button_event_t)
    (no_long_press : Int) (h : no_long_press = 0 ∨ no_long_press = 1) :
    ((config_button_callback gpio event no_long_press).1 = 0 ∨
      (config_button_callback gpio event no_long_press).1 = 1) ∧
    ∀ cmd, Effect.xTaskCreate TaskFn.led_helper_task cmd ∈
        (config_button_callback gpio event no_long_press).2 → cmd = 2 ∨ cmd = 4 := by
  cases event with
  | button_event_single_press => simp [config_button_single_press]
  | button_event_unknown => simp [config_button_unknown]; exact h
  | button_event_long_press =>
    rcases h with h | h <;> subst h
    · simp [config_button_long_press_at_zero]
    · simp [config_button_long_press_at_one]

/-- From a counter of `0` or `1`, any sequence of events ends with the counter at
`0` or `1`, and every feedback job spawned carries command `2` or `4`. -/
theorem config_button_run_invariant (gpio : uint8_t) (events : List button_event_t) :
    ∀ no_long_press : Int, (no_long_press = 0 ∨ no_long_press = 1) →
      ((config_button_run gpio events no_long_press).1 = 0 ∨
        (config_button_run gpio events no_long_press).1 = 1) ∧
      ∀ cmd, Effect.xTaskCreate TaskFn.led_helper_task cmd ∈
          (config_button_run gpio events no_long_press).2 → cmd = 2 ∨ cmd = 4 := by
  induction events with
  | nil => intro c h; simpa [config_button_run] using h
  | cons event rest ih =>
    intro c h
    obtain ⟨hstep, hcmd⟩ := config_button_step_invariant gpio event c h
    obtain ⟨hrest, hcmds⟩ := ih _ hstep
    refine ⟨by simpa [config_button_run] using hrest, ?_⟩
    intro cmd hmem
    simp only [config_button_run, List.mem_append] at hmem
    rcases hmem with hmem | hmem
    · exact hcmd cmd hmem
    · exact hcmds cmd hmem

/-- C2: from counter `0`, fewer than two consecutive long presses never spawn the
reset job; two consecutive long presses spawn it exactly once, it is the second
press that does, and the counter is `0` right after. -/
theorem factory_reset_threshold (gpio : uint8_t) :
    (∀ k, k < 2 →
      (config_button_run gpio
        (List.replicate k button_event_t.button_event_long_press) 0).2.count
        (Effect.xTaskCreate TaskFn.reset_configuration_task 0) = 0) ∧
    (config_button_run gpio
      [button_event_t.button_event_long_press] 0).1 = 1 ∧
    (config_button_callback gpio button_event_t.button_event_long_press 1).2.count
      (Effect.xTaskCreate TaskFn.reset_configuration_task 0) = 1 ∧
    (config_button_callback gpio button_event_t.button_event_long_press 1).1 = 0 ∧
    (config_button_run gpio
      [button_event_t.button_event_long_press,
       button_event_t.button_event_long_press] 0).2.count
      (Effect.xTaskCreate TaskFn.reset_configuration_task 0) = 1 ∧
    (config_button_run gpio
      [button_event_t.button_event_long_press,
       button_event_t.button_event_long_press] 0).1 = 0 := by
  refine ⟨?_, ?_, ?_, ?_, ?_, ?_⟩
  · intro k hk
    interval_cases k <;>
      simp [config_button_run, config_button_long_press_at_zero]
  all_goals
    simp [config_button_run, config_button_long_press_at_zero,
      config_button_long_press_at_one]

/-- Witness for C2 on the configuration pin with one long press delivered. -/
theorem factory_reset_threshold_witness :
    (1 : Nat) < 2 ∧
    (config_button_run 14
      (List.replicate 1 button_event_t.button_event_long_press) 0).2.count
      (Effect.xTaskCreate TaskFn.reset_configuration_task 0) = 0 :=
  ⟨by decide, (factory_reset_threshold 14).1 1 (by decide)⟩

/-- C3: a single press, whatever the counter, sets it to `0` and makes no call (no
reset job, no feedback job); the sequence long, single, long from counter `0`
never spawns the reset job and ends with counter `1`, below the threshold. -/
theorem short_press_cancels_reset (gpio : uint8_t) :
    (∀ no_long_press : Int,
      config_button_callback gpio button_event_t.button_event_single_press no_long_press =
        (0, [])) ∧
    config_button_run gpio
      [button_event_t.button_event_long_press,
       button_event_t.button_event_single_press,
       button_event_t.button_event_long_press] 0 =
      (1, [Effect.xTaskCreate TaskFn.led_helper_task 2,
           Effect.xTaskCreate TaskFn.led_helper_task 2]) ∧
    (config_button_run gpio
      [button_event_t.button_event_long_press,
       button_event_t.button_event_single_press,
       button_event_t.button_event_long_press] 0).2.count
      (Effect.xTaskCreate TaskFn.reset_configuration_task 0) = 0 ∧
    (config_button_run gpio
      [button_event_t.button_event_long_press,
       button_event_t.button_event_single_press,
       button_event_t.button_event_long_press] 0).1 < NO_LONG_PRESS_RESET_CONFIG := by
  refine ⟨fun _ => rfl, ?_, ?_, ?_⟩ <;>
    simp [config_button_run, config_button_long_press_at_zero,
      config_button_single_press, NO_LONG_PRESS_RESET_CONFIG]

/-- C10: whatever events are delivered from counter `0`, the counter after each of
them (after every prefix of the sequence) is `0` or `1`, so below
`NO_LONG_PRESS_RESET_CONFIG`; an event of another kind leaves the counter as it
was and makes no call; every feedback job spawned carries command `2` or `4`, so
never the identify command `0` and always a final LED state of off. -/
theorem reset_counter_invariant (gpio : uint8_t) (events : List button_event_t) :
    (∀ n, (config_button_run gpio (events.take n) 0).1 = 0 ∨
          (config_button_run gpio (events.take n) 0).1 = 1) ∧
    (∀ n, (config_button_run gpio (events.take n) 0).1 < NO_LONG_PRESS_RESET_CONFIG) ∧
    (∀ no_long_press : Int,
      config_button_callback gpio button_event_t.button_event_unknown no_long_press =
        (no_long_press, [])) ∧
    (∀ cmd, Effect.xTaskCreate TaskFn.led_helper_task cmd ∈
        (config_button_run gpio events 0).2 →
      (cmd = 2 ∨ cmd = 4) ∧ cmd ≠ 0 ∧ cmd &&& 1 = 0) := by
  refine ⟨?_, ?_, fun _ => rfl, ?_⟩
  · intro n
    exact (config_button_run_invariant gpio (events.take n) 0 (Or.inl rfl)).1
  · intro n
    rcases (config_button_run_invariant gpio (events.take n) 0 (Or.inl rfl)).1 with h | h <;>
      rw [h] <;> decide
  · intro cmd hmem
    rcases (config_button_run_invariant gpio events 0 (Or.inl rfl)).2 cmd hmem with h | h <;>
      subst h <;> decide

/-- Witness for C10: in the run long, unknown, long on the configuration pin the
second long press spawns the feedback job with command `4`. -/
theorem reset_counter_invariant_witness :
    Effect.xTaskCreate TaskFn.led_helper_task 4 ∈
      (config_button_run 14
        [button_event_t.button_event_long_press,
         button_event_t.button_event_unknown,
         button_event_t.button_event_long_press] 0).2 ∧
    (((4 : Nat) = 2 ∨ (4 : Nat) = 4) ∧ (4 : Nat) ≠ 0 ∧ (4 : Nat) &&& 1 = 0) :=
  ⟨by decide,
   (reset_counter_invariant 14
      [button_event_t.button_event_long_press,
       button_event_t.button_event_unknown,
       button_event_t.button_event_long_press]).2.2.2 4 (by decide)⟩

/-! ## Channel callbacks -/

/-- The flip of row `c` negates that cell alone, writes the relay and notifies. -/
theorem flip_channel_eq (cfg : Table) (c : Fin NO_CHARACTERISTICS) :
    flip_channel cfg c =
      (with_cell_negated cfg c, flip_trace cfg c (!(cfg c).switch_on.value.bool_value)) := by
  have htab : Function.update cfg c
      { cfg c with switch_on := ⟨⟨!(cfg c).switch_on.value.bool_value⟩⟩ } =
      with_cell_negated cfg c := by
    funext idx
    by_cases hidx : idx = c
    · subst hidx; simp [with_cell_negated]
    · simp [with_cell_negated, hidx]
  simp [flip_channel, flip_trace, relay_write, htab]

/-- The shared search stops at the first row that hits. -/
theorem first_hit_scan_first (hit : Fin NO_CHARACTERISTICS → Bool)
    (c : Fin NO_CHARACTERISTICS) (hc : hit c = true) :
    ∀ fuel idx, idx ≤ c.val → c.val < idx + fuel →
      (∀ j : Fin NO_CHARACTERISTICS, idx ≤ j.val → j < c → hit j = false) →
      first_hit_scan hit fuel idx = c.val := by
  intro fuel
  induction fuel with
  | zero => intro idx h1 h2; omega
  | succ k ih =>
    intro idx h1 h2 hfirst
    have hidx : idx < NO_CHARACTERISTICS := lt_of_le_of_lt h1 c.isLt
    by_cases heq : idx = c.val
    · have hfin : (⟨idx, hidx⟩ : Fin NO_CHARACTERISTICS) = c := Fin.ext heq
      simp [first_hit_scan, hidx, hfin, hc, heq]
    · have hlt : idx < c.val := lt_of_le_of_ne h1 heq
      have hmiss : hit ⟨idx, hidx⟩ = false := hfirst ⟨idx, hidx⟩ (le_refl _) hlt
      simp only [first_hit_scan, hidx, dite_true, hmiss]
      exact ih (idx + 1) hlt (by omega) (fun j hj hjc => hfirst j (by omega) hjc)

/-- The shared search runs to `NO_CHARACTERISTICS` when no row hits. -/
theorem first_hit_scan_none (hit : Fin NO_CHARACTERISTICS → Bool)
    (hnone : ∀ j, hit j = false) :
    ∀ fuel idx, idx ≤ NO_CHARACTERISTICS → NO_CHARACTERISTICS ≤ idx + fuel →
      first_hit_scan hit fuel idx = NO_CHARACTERISTICS := by
  intro fuel
  induction fuel with
  | zero => intro idx h1 h2; simp only [first_hit_scan]; omega
  | succ k ih =>
    intro idx h1 h2
    by_cases hidx : idx < NO_CHARACTERISTICS
    · simp only [first_hit_scan, hidx, dite_true, hnone]
      exact ih (idx + 1) hidx (by omega)
    · simp only [first_hit_scan, hidx, dite_false]; omega

/-- The toggle search is the shared search for rows whose toggle pin is `gpio`. -/
theorem toggle_scan_eq (cfg : Table) (gpio : uint8_t) (fuel idx : Nat) :
    toggle_scan cfg gpio fuel idx =
      first_hit_scan (fun j => decide ((gpio.val : Int) = (cfg j).toggle_gpio)) fuel idx := by
  induction fuel generalizing idx with
  | zero => rfl
  | succ k ih => simp [toggle_scan, first_hit_scan, ih]

/-- The button search is the shared search for rows whose button pin is `gpio`. -/
theorem button_scan_eq (cfg : Table) (gpio : uint8_t) (fuel idx : Nat) :
    button_scan cfg gpio fuel idx =
      first_hit_scan (fun j => decide ((gpio.val : Int) = (cfg j).button_gpio)) fuel idx := by
  induction fuel generalizing idx with
  | zero => rfl
  | succ k ih => simp [button_scan, first_hit_scan, ih]

/-- The setter search is the shared search for the row `_ch` points into. -/
theorem switch_on_scan_eq (_ch : CharacteristicPtr) (fuel idx : Nat) :
    switch_on_scan _ch fuel idx =
      first_hit_scan (fun j => decide (_ch = CharacteristicPtr.config_switch_on j)) fuel idx := by
  induction fuel generalizing idx with
  | zero => rfl
  | succ k ih => simp [switch_on_scan, first_hit_scan, ih]

/-- A resolved index that equals row `c` selects the flip of row `c`. -/
theorem flip_at_resolved (cfg : Table) (c : Fin NO_CHARACTERISTICS) (idx : Nat)
    (hidx : idx = c.val) :
    (if h : idx < NO_CHARACTERISTICS then flip_channel cfg ⟨idx, h⟩ else (cfg, [])) =
      flip_channel cfg c := by
  subst hidx
  simp

/-- The toggle callback is the flip of the row its search resolved. -/
theorem toggle_callback_unfold (cfg : Table) (gpio : uint8_t) :
    toggle_callback cfg gpio =
      if h : toggle_scan cfg gpio NO_CHARACTERISTICS 0 < NO_CHARACTERISTICS then
        flip_channel cfg ⟨toggle_scan cfg gpio NO_CHARACTERISTICS 0, h⟩
      else (cfg, []) := rfl

/-- The button callback, on a single or long press, is the flip of the row its
search resolved. -/
theorem button_callback_unfold (cfg : Table) (gpio : uint8_t) (event : button_event_t)
    (hevent : event = button_event_t.button_event_single_press ∨
      event = button_event_t.button_event_long_press) :
    button_callback cfg gpio event =
      if h : button_scan cfg gpio NO_CHARACTERISTICS 0 < NO_CHARACTERISTICS then
        flip_channel cfg ⟨button_scan cfg gpio NO_CHARACTERISTICS 0, h⟩
      else (cfg, []) := by
  rcases hevent with h | h <;> subst h <;> rfl

/-- The toggle callback flips the first row, in table order, whose toggle pin is
`gpio`, and that row alone. -/
theorem toggle_callback_first (cfg : Table) (gpio : uint8_t) (c : Fin NO_CHARACTERISTICS)
    (hc : (cfg c).toggle_gpio = (gpio.val : Int))
    (hfirst : ∀ j, j < c → (cfg j).toggle_gpio ≠ (gpio.val : Int)) :
    toggle_callback cfg gpio =
      (with_cell_negated cfg c, flip_trace cfg c (!(cfg c).switch_on.value.bool_value)) := by
  have hscan : toggle_scan cfg gpio NO_CHARACTERISTICS 0 = c.val := by
    rw [toggle_scan_eq]
    refine first_hit_scan_first _ c (by simp [hc]) _ _ (Nat.zero_le _) (by have := c.isLt; omega) ?_
    intro j _ hj
    have := hfirst j hj
    simp [eq_comm, this]
  rw [toggle_callback_unfold, flip_at_resolved cfg c _ hscan, flip_channel_eq]

/-- The toggle callback does nothing when no row has toggle pin `gpio`. -/
theorem toggle_callback_none (cfg : Table) (gpio : uint8_t)
    (hnone : ∀ j, (cfg j).toggle_gpio ≠ (gpio.val : Int)) :
    toggle_callback cfg gpio = (cfg, []) := by
  have hscan : toggle_scan cfg gpio NO_CHARACTERISTICS 0 = NO_CHARACTERISTICS := by
    rw [toggle_scan_eq]
    refine first_hit_scan_none _ ?_ _ _ (Nat.zero_le _) (by omega)
    intro j
    have := hnone j
    simp [eq_comm, this]
  simp [toggle_callback, hscan]

/-- The button callback, on a single or long press, flips the first row, in table
order, whose button pin is `gpio`, and that row alone. -/
theorem button_callback_first (cfg : Table) (gpio : uint8_t) (event : button_event_t)
    (c : Fin NO_CHARACTERISTICS)
    (hevent : event = button_event_t.button_event_single_press ∨
      event = button_event_t.button_event_long_press)
    (hc : (cfg c).button_gpio = (gpio.val : Int))
    (hfirst : ∀ j, j < c → (cfg j).button_gpio ≠ (gpio.val : Int)) :
    button_callback cfg gpio event =
      (with_cell_negated cfg c, flip_trace cfg c (!(cfg c).switch_on.value.bool_value)) := by
  have hscan : button_scan cfg gpio NO_CHARACTERISTICS 0 = c.val := by
    rw [button_scan_eq]
    refine first_hit_scan_first _ c (by simp [hc]) _ _ (Nat.zero_le _) (by have := c.isLt; omega) ?_
    intro j _ hj
    have := hfirst j hj
    simp [eq_comm, this]
  rw [button_callback_unfold cfg gpio event hevent, flip_at_resolved cfg c _ hscan,
    flip_channel_eq]

/-- The button callback does nothing when no row has button pin `gpio`. -/
theorem button_callback_none (cfg : Table) (gpio : uint8_t) (event : button_event_t)
    (hnone : ∀ j, (cfg j).button_gpio ≠ (gpio.val : Int)) :
    button_callback cfg gpio event = (cfg, []) := by
  have hscan : button_scan cfg gpio NO_CHARACTERISTICS 0 = NO_CHARACTERISTICS := by
    rw [button_scan_eq]
    refine first_hit_scan_none _ ?_ _ _ (Nat.zero_le _) (by omega)
    intro j
    have := hnone j
    simp [eq_comm, this]
  simp [button_callback, hscan]

/-- The button callback does nothing on an event of another kind. -/
theorem button_callback_unknown (cfg : Table) (gpio : uint8_t) :
    button_callback cfg gpio button_event_t.button_event_unknown = (cfg, []) := by
  unfold button_callback
  simp only
  split <;> rfl

/-- C1: when `p` is the toggle pin of exactly one row `c`, `toggle_callback(p)`
leaves `c`'s cell at the negation of its old value and makes exactly two calls:
one relay write, to `c`'s relay pin at the active-low level of the new value, and
one notification, for `c`'s characteristic carrying the new value. The same holds
for `button_callback(p, e)` with `e` a single or long press when `p` is the button
pin of exactly one row `c`. On the static table, `toggle_callback(12)` sets row 2
to true, writes level 0 to pin 15 and notifies true once. -/
theorem flip_postcondition (cfg : Table) (c : Fin NO_CHARACTERISTICS) (p : uint8_t) :
    ((cfg c).toggle_gpio = (p.val : Int) →
      (∀ c1, (cfg c1).toggle_gpio = (p.val : Int) → c1 = c) →
      ((toggle_callback cfg p).1 c).switch_on.value.bool_value =
        (!(cfg c).switch_on.value.bool_value) ∧
      (toggle_callback cfg p).2 =
        [Effect.gpio_write (cfg c).relay_gpio
           (if ((toggle_callback cfg p).1 c).switch_on.value.bool_value = true then 0 else 1),
         Effect.homekit_characteristic_notify (CharacteristicPtr.config_switch_on c)
           ((toggle_callback cfg p).1 c).switch_on.value]) ∧
    (∀ e, (e = button_event_t.button_event_single_press ∨
          e = button_event_t.button_event_long_press) →
      (cfg c).button_gpio = (p.val : Int) →
      (∀ c1, (cfg c1).button_gpio = (p.val : Int) → c1 = c) →
      ((button_callback cfg p e).1 c).switch_on.value.bool_value =
        (!(cfg c).switch_on.value.bool_value) ∧
      (button_callback cfg p e).2 =
        [Effect.gpio_write (cfg c).relay_gpio
           (if ((button_callback cfg p e).1 c).switch_on.value.bool_value = true then 0 else 1),
         Effect.homekit_characteristic_notify (CharacteristicPtr.config_switch_on c)
           ((button_callback cfg p e).1 c).switch_on.value]) ∧
    (((toggle_callback homekit_config 12).1 2).switch_on.value.bool_value = true ∧
      (toggle_callback homekit_config 12).2 =
        [Effect.gpio_write 15 0,
         Effect.homekit_characteristic_notify (CharacteristicPtr.config_switch_on 2) ⟨true⟩]) := by
  refine ⟨?_, ?_, by decide⟩
  · intro hc honly
    have hfirst : ∀ j, j < c → (cfg j).toggle_gpio ≠ (p.val : Int) :=
      fun j hj hjp => absurd (honly j hjp) (Fin.ne_of_lt hj)
    rw [toggle_callback_first cfg p c hc hfirst]
    simp [with_cell_negated, flip_trace]
  · intro e he hc honly
    have hfirst : ∀ j, j < c → (cfg j).button_gpio ≠ (p.val : Int) :=
      fun j hj hjp => absurd (honly j hjp) (Fin.ne_of_lt hj)
    rw [button_callback_first cfg p e c he hc hfirst]
    simp [with_cell_negated, flip_trace]

/-- Witness for C1: pin 12 on the static table (row 2), and a long press on button
pin 10 of a table with buttons (row 1, switched on before the press). -/
theorem flip_postcondition_witness :
    ((homekit_config 2).toggle_gpio = ((12 : uint8_t).val : Int) ∧
      (∀ c1, (homekit_config c1).toggle_gpio = ((12 : uint8_t).val : Int) → c1 = 2) ∧
      ((toggle_callback homekit_config 12).1 2).switch_on.value.bool_value =
        (!(homekit_config 2).switch_on.value.bool_value)) ∧
    ((button_config 1).button_gpio = ((10 : uint8_t).val : Int) ∧
      (∀ c1, (button_config c1).button_gpio = ((10 : uint8_t).val : Int) → c1 = 1) ∧
      ((button_callback button_config 10
          button_event_t.button_event_long_press).1 1).switch_on.value.bool_value =
        (!(button_config 1).switch_on.value.bool_value)) :=
  ⟨⟨by decide, by decide,
    ((flip_postcondition homekit_config 2 12).1 (by decide) (by decide)).1⟩,
   ⟨by decide, by decide,
    ((flip_postcondition button_config 1 10).2.1 button_event_t.button_event_long_press
      (Or.inr rfl) (by decide) (by decide)).1⟩⟩

/-- C6, as stated, fails when rows share a pin: in a table whose rows 0 and 1 both
have toggle pin 4, `toggle_callback(4)` flips row 0 only; row 1 keeps its cell, and
the only calls are the relay write and the notification of row 0. -/
theorem toggle_callback_shared_pin_flips_first_only :
    (shared_toggle_config 0).toggle_gpio = ((4 : uint8_t).val : Int) ∧
    (shared_toggle_config 1).toggle_gpio = ((4 : uint8_t).val : Int) ∧
    ((toggle_callback shared_toggle_config 4).1 1).switch_on.value.bool_value =
      (shared_toggle_config 1).switch_on.value.bool_value ∧
    (toggle_callback shared_toggle_config 4).2 =
      [Effect.gpio_write 0 0,
       Effect.homekit_characteristic_notify (CharacteristicPtr.config_switch_on 0) ⟨true⟩] ∧
    ¬ (∀ c, (shared_toggle_config c).toggle_gpio = ((4 : uint8_t).val : Int) →
        ((toggle_callback shared_toggle_config 4).1 c).switch_on.value.bool_value =
          (!(shared_toggle_config c).switch_on.value.bool_value)) := by
  decide

/-- C6, amended: `toggle_callback(p)` flips the first row, in table order, whose
toggle pin is `p`: that row's cell is negated, its relay is written at the level
of the new value and one notification for it is emitted; every other row, also
one sharing `p`, keeps its cell and gets no call. Likewise `button_callback(p, e)`
for `e` a single or long press and the first row whose button pin is `p`. -/
theorem dispatch_reaches_first_bound_channel (cfg : Table) (c : Fin NO_CHARACTERISTICS)
    (p : uint8_t) :
    ((cfg c).toggle_gpio = (p.val : Int) →
      (∀ j, j < c → (cfg j).toggle_gpio ≠ (p.val : Int)) →
      ((toggle_callback cfg p).1 c).switch_on.value.bool_value =
        (!(cfg c).switch_on.value.bool_value) ∧
      (∀ c1, c1 ≠ c → (toggle_callback cfg p).1 c1 = cfg c1) ∧
      (toggle_callback cfg p).2 =
        flip_trace cfg c (!(cfg c).switch_on.value.bool_value)) ∧
    (∀ e, (e = button_event_t.button_event_single_press ∨
          e = button_event_t.button_event_long_press) →
      (cfg c).button_gpio = (p.val : Int) →
      (∀ j, j < c → (cfg j).button_gpio ≠ (p.val : Int)) →
      ((button_callback cfg p e).1 c).switch_on.value.bool_value =
        (!(cfg c).switch_on.value.bool_value) ∧
      (∀ c1, c1 ≠ c → (button_callback cfg p e).1 c1 = cfg c1) ∧
      (button_callback cfg p e).2 =
        flip_trace cfg c (!(cfg c).switch_on.value.bool_value)) := by
  refine ⟨?_, ?_⟩
  · intro hc hfirst
    rw [toggle_callback_first cfg p c hc hfirst]
    refine ⟨by simp [with_cell_negated], ?_, rfl⟩
    intro c1 hc1
    simp [with_cell_negated, hc1]
  · intro e he hc hfirst
    rw [button_callback_first cfg p e c he hc hfirst]
    refine ⟨by simp [with_cell_negated], ?_, rfl⟩
    intro c1 hc1
    simp [with_cell_negated, hc1]

/-- Witness for C6 amended: toggle pin 4 shared by rows 0 and 1 reaches row 0, and
a single press on button pin 11 shared by rows 2 and 3 reaches row 2. -/
theorem dispatch_reaches_first_bound_channel_witness :
    ((shared_toggle_config 0).toggle_gpio = ((4 : uint8_t).val : Int) ∧
      (∀ j, j < (0 : Fin NO_CHARACTERISTICS) →
        (shared_toggle_config j).toggle_gpio ≠ ((4 : uint8_t).val : Int)) ∧
      (toggle_callback shared_toggle_config 4).2 =
        flip_trace shared_toggle_config 0
          (!(shared_toggle_config 0).switch_on.value.bool_value)) ∧
    ((button_config 2).button_gpio = ((11 : uint8_t).val : Int) ∧
      (∀ j, j < (2 : Fin NO_CHARACTERISTICS) →
        (button_config j).button_gpio ≠ ((11 : uint8_t).val : Int)) ∧
      (button_callback button_config 11 button_event_t.button_event_single_press).2 =
        flip_trace button_config 2 (!(button_config 2).switch_on.value.bool_value)) :=
  ⟨⟨by decide, by decide,
    ((dispatch_reaches_first_bound_channel shared_toggle_config 0 4).1
      (by decide) (by decide)).2.2⟩,
   ⟨by decide, by decide,
    ((dispatch_reaches_first_bound_channel button_config 2 11).2
      button_event_t.button_event_single_press (Or.inl rfl) (by decide) (by decide)).2.2⟩⟩

/-- C9: `toggle_callback(p)` for a pin that is no row's toggle pin,
`button_callback(p, e)` for a pin that is no row's button pin (any event kind), and
`button_callback(p, e)` for any pin with an event kind other than single and long
press each return the table unchanged and make no call: no relay write, no
notification. -/
theorem dropped_events_have_no_effect (cfg : Table) (p : uint8_t) (e : button_event_t) :
    ((∀ c, (cfg c).toggle_gpio ≠ (p.val : Int)) → toggle_callback cfg p = (cfg, [])) ∧
    ((∀ c, (cfg c).button_gpio ≠ (p.val : Int)) → button_callback cfg p e = (cfg, [])) ∧
    (e ≠ button_event_t.button_event_single_press →
      e ≠ button_event_t.button_event_long_press →
      button_callback cfg p e = (cfg, [])) := by
  refine ⟨toggle_callback_none cfg p, button_callback_none cfg p e, ?_⟩
  intro h1 h2
  cases e with
  | button_event_single_press => exact absurd rfl h1
  | button_event_long_press => exact absurd rfl h2
  | button_event_unknown => exact button_callback_unknown cfg p

/-- Witness for C9: pin 7 is no toggle pin and pin 4 no button pin of the static
table; an unknown event on button pin 10 of a table with buttons is dropped. -/
theorem dropped_events_have_no_effect_witness :
    ((∀ c, (homekit_config c).toggle_gpio ≠ ((7 : uint8_t).val : Int)) ∧
      toggle_callback homekit_config 7 = (homekit_config, [])) ∧
    ((∀ c, (homekit_config c).button_gpio ≠ ((4 : uint8_t).val : Int)) ∧
      button_callback homekit_config 4 button_event_t.button_event_long_press =
        (homekit_config, [])) ∧
    (button_event_t.button_event_unknown ≠ button_event_t.button_event_single_press ∧
      button_event_t.button_event_unknown ≠ button_event_t.button_event_long_press ∧
      button_callback button_config 10 button_event_t.button_event_unknown =
        (button_config, [])) :=
  ⟨⟨by decide,
    (dropped_events_have_no_effect homekit_config 7
      button_event_t.button_event_long_press).1 (by decide)⟩,
   ⟨by decide,
    (dropped_events_have_no_effect homekit_config 4
      button_event_t.button_event_long_press).2.1 (by decide)⟩,
   ⟨by decide, by decide,
    (dropped_events_have_no_effect button_config 10
      button_event_t.button_event_unknown).2.2 (by decide) (by decide)⟩⟩

/-! ## Protocol write callback -/

/-- C7, as stated, fails: called for row 0 of the static table with value true,
`switch_on_callback` makes the relay write and nothing else. The cell of row 0 is
still false afterwards and no notification is emitted. -/
theorem switch_on_callback_keeps_cell_and_is_silent :
    (switch_on_callback homekit_config (CharacteristicPtr.config_switch_on 0) ⟨true⟩).2 =
      [Effect.gpio_write 0 0] ∧
    ((switch_on_callback homekit_config
        (CharacteristicPtr.config_switch_on 0) ⟨true⟩).1 0).switch_on.value.bool_value ≠ true ∧
    (switch_on_callback homekit_config (CharacteristicPtr.config_switch_on 0) ⟨true⟩).2.count
      (Effect.homekit_characteristic_notify (CharacteristicPtr.config_switch_on 0) ⟨true⟩) ≠ 1 := by
  decide

/-- C7, amended: called with the characteristic of row `idx` and value `v`,
`switch_on_callback` writes row `idx`'s relay pin at the active-low level of `v`
(level 0 when `v` is true, level 1 when false) and makes no other call; it does
not assign to the table. -/
theorem switch_on_callback_writes_relay_only (cfg : Table) (idx : Fin NO_CHARACTERISTICS)
    (v : Bool) :
    switch_on_callback cfg (CharacteristicPtr.config_switch_on idx) ⟨v⟩ =
      (cfg, [Effect.gpio_write (cfg idx).relay_gpio (if v = true then 0 else 1)]) := by
  have hscan : switch_on_scan (CharacteristicPtr.config_switch_on idx)
      NO_CHARACTERISTICS 0 = idx.val := by
    rw [switch_on_scan_eq]
    refine first_hit_scan_first _ idx (by simp) _ _ (Nat.zero_le _)
      (by have := idx.isLt; omega) ?_
    intro j _ hj
    simpa using (Fin.ne_of_lt hj).symm
  simp only [switch_on_callback, hscan, idx.isLt, dite_true, Fin.eta, relay_write]

/-! ## Start-up registration: one call per distinct pin -/

/-- The duplicate search finds `key` exactly when an entry from `j0` up to, not
including, `i` holds it. -/
theorem pin_found_iff (seen : Fin NO_CHARACTERISTICS → Int) (key : Int)
    (i : Fin NO_CHARACTERISTICS) :
    ∀ fuel j0, i.val ≤ j0 + fuel →
      (pin_found seen key i fuel j0 = true ↔
        ∃ j : Fin NO_CHARACTERISTICS, j0 ≤ j.val ∧ j < i ∧ key = seen j) := by
  intro fuel
  induction fuel with
  | zero =>
    intro j0 h
    simp only [pin_found, Bool.false_eq_true, false_iff]
    rintro ⟨j, hj0, hji, _⟩
    have : j.val < i.val := hji
    omega
  | succ k ih =>
    intro j0 h
    by_cases hlt : j0 < i.val
    · by_cases hkey : key = seen ⟨j0, Nat.lt_trans hlt i.isLt⟩
      · simp only [pin_found, hlt, dite_true, hkey, if_true, true_iff]
        exact ⟨⟨j0, Nat.lt_trans hlt i.isLt⟩, le_refl _, hlt, hkey.symm ▸ rfl⟩
      · simp only [pin_found, hlt, dite_true, hkey, if_false]
        rw [ih (j0 + 1) (by omega)]
        constructor
        · rintro ⟨j, hj0, hji, hj⟩
          exact ⟨j, by omega, hji, hj⟩
        · rintro ⟨j, hj0, hji, hj⟩
          refine ⟨j, ?_, hji, hj⟩
          by_contra hcon
          have hj_eq : j = ⟨j0, Nat.lt_trans hlt i.isLt⟩ := Fin.ext (show j.val = j0 by omega)
          exact hkey (hj_eq ▸ hj)
    · simp only [pin_found, hlt, dite_false, Bool.false_eq_true, false_iff]
      rintro ⟨j, hj0, hji, _⟩
      have : j.val < i.val := hji
      omega

/-- A row that is not the first to carry its pin has an earlier row that is. -/
theorem exists_first_use (pins : Fin NO_CHARACTERISTICS → Int) :
    ∀ n (i : Fin NO_CHARACTERISTICS), i.val = n → ¬ first_use pins i →
      ∃ j, j < i ∧ pins j = pins i ∧ first_use pins j := by
  intro n
  induction n using Nat.strong_induction_on with
  | _ n ih =>
    intro i hi hnot
    unfold first_use at hnot
    push_neg at hnot
    obtain ⟨j, hji, hj⟩ := hnot
    by_cases hfirst : first_use pins j
    · exact ⟨j, hji, hj, hfirst⟩
    · have hjn : j.val < n := hi ▸ hji
      obtain ⟨j1, hj1, hpin, hfirst1⟩ := ih j.val hjn j rfl hfirst
      exact ⟨j1, lt_trans hj1 hji, hpin.trans hj, hfirst1⟩

/-- With the claimed pins as they stand before iteration `i`, a row with a pin is
found to be a duplicate exactly when it is not the first to carry that pin. -/
theorem pin_found_iff_not_first (pins : Fin NO_CHARACTERISTICS → Int)
    (i : Fin NO_CHARACTERISTICS) (seen : Fin NO_CHARACTERISTICS → Int)
    (hseen : seen_after pins i.val seen) (hpin : pins i ≠ -1) :
    pin_found seen (pins i) i i.val 0 = true ↔ ¬ first_use pins i := by
  rw [pin_found_iff seen (pins i) i i.val 0 (by omega)]
  constructor
  · rintro ⟨j, _, hji, hj⟩ hfirst
    have hsj := hseen j
    by_cases hcond : j.val < i.val ∧ first_use pins j
    · rw [if_pos hcond] at hsj
      exact hfirst j hji (hsj ▸ hj.symm)
    · rw [if_neg hcond] at hsj
      exact hpin (hj.trans hsj)
  · intro hnot
    obtain ⟨j, hji, hj, hfirst⟩ := exists_first_use pins i.val i rfl hnot
    refine ⟨j, Nat.zero_le _, hji, ?_⟩
    have hsj := hseen j
    rw [if_pos ⟨hji, hfirst⟩] at hsj
    rw [hsj, hj]

/-- One half-iteration makes the expected calls and leaves the claimed pins as they
stand before the next iteration. -/
theorem register_step_spec (create : Int → Effect) (pins : Fin NO_CHARACTERISTICS → Int)
    (i : Fin NO_CHARACTERISTICS) (seen : Fin NO_CHARACTERISTICS → Int)
    (hseen : seen_after pins i.val seen) :
    (register_step create pins i seen).2 = expected_calls create pins i ∧
    seen_after pins (i.val + 1) (register_step create pins i seen).1 := by
  have hself : seen i = -1 := by
    have := hseen i
    simpa using this
  by_cases hpin : pins i = -1
  · have hcalls : expected_calls create pins i = [] := by simp [expected_calls, hpin]
    have hstate : seen_after pins (i.val + 1) seen := by
      intro j
      by_cases hj : j = i
      · subst hj; simp [hself, hpin]
      · have hlt : j.val < i.val + 1 ↔ j.val < i.val := by
          have : j.val ≠ i.val := fun h => hj (Fin.ext h)
          omega
        rw [hseen j]; simp only [hlt]
    by_cases hfound : pin_found seen (pins i) i i.val 0 = true
    · simp only [register_step, hfound, Bool.not_true, Bool.false_eq_true, if_false, hcalls]
      exact ⟨trivial, hstate⟩
    · have hupd : Function.update seen i (pins i) = seen := by
        rw [hpin, ← hself]; exact Function.update_eq_self i seen
      simp only [Bool.not_eq_true] at hfound
      simp only [register_step, hfound, Bool.not_false, if_true, hupd, hself, ne_eq,
        not_true_eq_false, if_false, hcalls]
      exact ⟨trivial, hstate⟩
  · have hiff := pin_found_iff_not_first pins i seen hseen hpin
    by_cases hfound : pin_found seen (pins i) i i.val 0 = true
    · have hnot : ¬ first_use pins i := hiff.mp hfound
      have hcalls : expected_calls create pins i = [] := by simp [expected_calls, hnot]
      simp only [register_step, hfound, Bool.not_true, Bool.false_eq_true, if_false, hcalls]
      refine ⟨trivial, ?_⟩
      intro j
      by_cases hj : j = i
      · subst hj; simp [hself, hnot]
      · have hlt : j.val < i.val + 1 ↔ j.val < i.val := by
          have : j.val ≠ i.val := fun h => hj (Fin.ext h)
          omega
        rw [hseen j]; simp only [hlt]
    · have hfirst : first_use pins i := by
        by_contra hcon
        exact hfound (hiff.mpr hcon)
      have hcalls : expected_calls create pins i = [create (pins i)] := by
        simp [expected_calls, hpin, hfirst]
      simp only [Bool.not_eq_true] at hfound
      simp only [register_step, hfound, Bool.not_false, if_true, Function.update_same, ne_eq,
        hpin, not_false_eq_true, hcalls]
      refine ⟨trivial, ?_⟩
      intro j
      by_cases hj : j = i
      · subst hj; simp [hfirst]
      · have hlt : j.val < i.val + 1 ↔ j.val < i.val := by
          have : j.val ≠ i.val := fun h => hj (Fin.ext h)
          omega
        rw [Function.update_noteq hj, hseen j]; simp only [hlt]

/-- The registration loop, started at iteration `i` with the claimed pins as they
stand there, makes the expected calls iteration by iteration. -/
theorem user_init_loop_spec (cfg : Table) :
    ∀ fuel i (buttons toggles : Fin NO_CHARACTERISTICS → Int),
      i + fuel ≤ NO_CHARACTERISTICS →
      seen_after (fun j => (cfg j).button_gpio) i buttons →
      seen_after (fun j => (cfg j).toggle_gpio) i toggles →
      user_init_loop cfg fuel i buttons toggles =
        (List.range' i fuel).map (expected_iteration cfg) := by
  intro fuel
  induction fuel with
  | zero => intro i b t _ _ _; rfl
  | succ k ih =>
    intro i b t hfuel hb ht
    have hi : i < NO_CHARACTERISTICS := by omega
    obtain ⟨hbcalls, hbseen⟩ :=
      register_step_spec Effect.button_create (fun j => (cfg j).button_gpio) ⟨i, hi⟩ b hb
    obtain ⟨htcalls, htseen⟩ :=
      register_step_spec Effect.toggle_create (fun j => (cfg j).toggle_gpio) ⟨i, hi⟩ t ht
    have hrec := ih (i + 1) _ _ (by omega) hbseen htseen
    have hb_eq : user_init_button_step cfg ⟨i, hi⟩ b =
        register_step Effect.button_create (fun j => (cfg j).button_gpio) ⟨i, hi⟩ b := rfl
    have ht_eq : user_init_toggle_step cfg ⟨i, hi⟩ t =
        register_step Effect.toggle_create (fun j => (cfg j).toggle_gpio) ⟨i, hi⟩ t := rfl
    simp only [user_init_loop, hi, dite_true, hb_eq, ht_eq, hrec, hbcalls, htcalls,
      List.range'_succ, List.map_cons, expected_iteration]

/-- The registration loop makes, in its four iterations, the expected calls. -/
theorem user_init_registration_eq (cfg : Table) :
    user_init_registration cfg =
      [expected_iteration cfg 0, expected_iteration cfg 1,
       expected_iteration cfg 2, expected_iteration cfg 3] := by
  have hinit : ∀ pins : Fin NO_CHARACTERISTICS → Int, seen_after pins 0 (fun _ => -1) := by
    intro pins j
    simp
  rw [user_init_registration, user_init_loop_spec cfg NO_CHARACTERISTICS 0 _ _ (by omega)
    (hinit _) (hinit _)]
  rfl

/-- A call with pin `p` is among the expected calls of row `i` exactly when `p` is a
pin, row `i` carries it and no earlier row does. -/
theorem mem_expected_calls (create : Int → Effect) (hinj : ∀ a b, create a = create b → a = b)
    (pins : Fin NO_CHARACTERISTICS → Int) (i : Fin NO_CHARACTERISTICS) (p : Int) :
    create p ∈ expected_calls create pins i ↔
      p ≠ -1 ∧ pins i = p ∧ ∀ j, j < i → pins j ≠ p := by
  unfold expected_calls
  by_cases h : pins i ≠ -1 ∧ first_use pins i
  · rw [if_pos h, List.mem_singleton]
    constructor
    · intro hp
      have hpi : p = pins i := hinj _ _ hp
      subst hpi
      exact ⟨h.1, rfl, h.2⟩
    · rintro ⟨_, hpi, _⟩
      rw [hpi]
  · rw [if_neg h]
    simp only [List.not_mem_nil, false_iff]
    rintro ⟨hp, hpi, hfirst⟩
    subst hpi
    exact h ⟨hp, hfirst⟩

/-- The expected calls of row `i` hold a given call at most once. -/
theorem count_expected_calls (create : Int → Effect)
    (hinj : ∀ a b, create a = create b → a = b)
    (pins : Fin NO_CHARACTERISTICS → Int) (i : Fin NO_CHARACTERISTICS) (p : Int) :
    (expected_calls create pins i).count (create p) =
      if p ≠ -1 ∧ pins i = p ∧ ∀ j, j < i → pins j ≠ p then 1 else 0 := by
  have hmem := mem_expected_calls create hinj pins i p
  by_cases h : p ≠ -1 ∧ pins i = p ∧ ∀ j, j < i → pins j ≠ p
  · rw [if_pos h]
    obtain ⟨hp, hpi, hfirst⟩ := h
    subst hpi
    have hcond : pins i ≠ -1 ∧ first_use pins i := ⟨hp, hfirst⟩
    simp [expected_calls, hcond]
  · rw [if_neg h]
    exact List.count_eq_zero.mpr (fun hin => h (hmem.mp hin))

/-- The expected calls of one kind hold no call of the other kind. -/
theorem count_expected_calls_other (create other : Int → Effect)
    (hdiff : ∀ a b, create a ≠ other b)
    (pins : Fin NO_CHARACTERISTICS → Int) (i : Fin NO_CHARACTERISTICS) (p : Int) :
    (expected_calls create pins i).count (other p) = 0 := by
  apply List.count_eq_zero.mpr
  unfold expected_calls
  split
  · simp only [List.mem_singleton]
    exact fun h => hdiff _ _ h.symm
  · simp

/-- Over the four rows, exactly one is the first to carry a pin some row carries,
and none is when no row carries it or it is `-1`. -/
theorem sum_first_use (pins : Fin NO_CHARACTERISTICS → Int) (p : Int)
    (f : Fin NO_CHARACTERISTICS → Nat)
    (hf : ∀ i, f i = if p ≠ -1 ∧ pins i = p ∧ ∀ j, j < i → pins j ≠ p then 1 else 0) :
    f 0 + f 1 + f 2 + f 3 = if p ≠ -1 ∧ ∃ c, pins c = p then 1 else 0 := by
  by_cases h : p ≠ -1 ∧ ∃ c, pins c = p
  · rw [if_pos h]
    obtain ⟨hp, c, hc⟩ := h
    obtain ⟨c0, hc0, hfirst0⟩ : ∃ c0, pins c0 = p ∧ ∀ j, j < c0 → pins j ≠ p := by
      by_cases hfirst : first_use pins c
      · exact ⟨c, hc, fun j hj => hc ▸ hfirst j hj⟩
      · obtain ⟨j, _, hj, hfirstj⟩ := exists_first_use pins c.val c rfl hfirst
        exact ⟨j, hj.trans hc, fun k hk => (hj.trans hc) ▸ hfirstj k hk⟩
    have hf1 : ∀ i, f i = if i = c0 then 1 else 0 := by
      intro i
      rw [hf i]
      by_cases hi : i = c0
      · subst hi
        rw [if_pos rfl, if_pos ⟨hp, hc0, hfirst0⟩]
      · rw [if_neg hi, if_neg]
        rintro ⟨_, hpi, hfi⟩
        rcases lt_trichotomy i c0 with hlt | heq | hgt
        · exact hfirst0 i hlt hpi
        · exact hi heq
        · exact hfi c0 hgt hc0
    rw [hf1 0, hf1 1, hf1 2, hf1 3]
    fin_cases c0 <;> decide
  · rw [if_neg h]
    have hzero : ∀ i, f i = 0 := by
      intro i
      rw [hf i, if_neg]
      rintro ⟨hp, hpi, _⟩
      exact h ⟨hp, i, hpi⟩
    simp [hzero]

/-- C5: the registration loop of `user_init` runs `NO_CHARACTERISTICS` iterations;
over the whole loop `toggle_create(p)` is called exactly once when `p` is not `-1`
and is the toggle pin of some row, and not at all otherwise (so never for `-1` and
never for a pin no row names); the same holds for `button_create` and button pins;
the call for `p` is made in the iteration of the first row, in table order, that
names `p`. -/
theorem pin_deduplication (cfg : Table) :
    (user_init_registration cfg).length = NO_CHARACTERISTICS ∧
    (∀ p : Int, (user_init_registration cfg).flatten.count (Effect.toggle_create p) =
      if p ≠ -1 ∧ ∃ c, (cfg c).toggle_gpio = p then 1 else 0) ∧
    (∀ p : Int, (user_init_registration cfg).flatten.count (Effect.button_create p) =
      if p ≠ -1 ∧ ∃ c, (cfg c).button_gpio = p then 1 else 0) ∧
    (∀ (i : Fin NO_CHARACTERISTICS) (p : Int),
      Effect.toggle_create p ∈ (user_init_registration cfg).getD i.val [] ↔
        p ≠ -1 ∧ (cfg i).toggle_gpio = p ∧ ∀ j, j < i → (cfg j).toggle_gpio ≠ p) ∧
    (∀ (i : Fin NO_CHARACTERISTICS) (p : Int),
      Effect.button_create p ∈ (user_init_registration cfg).getD i.val [] ↔
        p ≠ -1 ∧ (cfg i).button_gpio = p ∧ ∀ j, j < i → (cfg j).button_gpio ≠ p) := by
  have hinj_t : ∀ a b, Effect.toggle_create a = Effect.toggle_create b → a = b :=
    fun a b h => by injection h
  have hinj_b : ∀ a b, Effect.button_create a = Effect.button_create b → a = b :=
    fun a b h => by injection h
  have hdiff_tb : ∀ a b, Effect.toggle_create a ≠ Effect.button_create b :=
    fun a b h => by cases h
  have hdiff_bt : ∀ a b, Effect.button_create a ≠ Effect.toggle_create b :=
    fun a b h => by cases h
  have hiter : ∀ i : Fin NO_CHARACTERISTICS,
      (user_init_registration cfg).getD i.val [] =
        expected_calls Effect.button_create (fun j => (cfg j).button_gpio) i ++
        expected_calls Effect.toggle_create (fun j => (cfg j).toggle_gpio) i := by
    intro i
    have hexp : expected_iteration cfg i.val =
        expected_calls Effect.button_create (fun j => (cfg j).button_gpio) i ++
        expected_calls Effect.toggle_create (fun j => (cfg j).toggle_gpio) i := by
      simp only [expected_iteration, i.isLt, dite_true, Fin.eta]
    rw [user_init_registration_eq, ← hexp]
    fin_cases i <;> rfl
  have hcount_t : ∀ (i : Fin NO_CHARACTERISTICS) (p : Int),
      (expected_iteration cfg i.val).count (Effect.toggle_create p) =
        if p ≠ -1 ∧ (cfg i).toggle_gpio = p ∧ ∀ j, j < i → (cfg j).toggle_gpio ≠ p
        then 1 else 0 := by
    intro i p
    simp only [expected_iteration, i.isLt, dite_true, Fin.eta, List.count_append,
      count_expected_calls_other Effect.button_create Effect.toggle_create hdiff_bt,
      count_expected_calls Effect.toggle_create hinj_t, Nat.zero_add]
  have hcount_b : ∀ (i : Fin NO_CHARACTERISTICS) (p : Int),
      (expected_iteration cfg i.val).count (Effect.button_create p) =
        if p ≠ -1 ∧ (cfg i).button_gpio = p ∧ ∀ j, j < i → (cfg j).button_gpio ≠ p
        then 1 else 0 := by
    intro i p
    simp only [expected_iteration, i.isLt, dite_true, Fin.eta, List.count_append,
      count_expected_calls_other Effect.toggle_create Effect.button_create hdiff_tb,
      count_expected_calls Effect.button_create hinj_b, Nat.add_zero]
  refine ⟨?_, ?_, ?_, ?_, ?_⟩
  · rw [user_init_registration_eq]; rfl
  · intro p
    rw [user_init_registration_eq]
    simp only [List.flatten_cons, List.flatten_nil, List.append_nil, List.count_append]
    have hsum := sum_first_use (fun j => (cfg j).toggle_gpio) p
      (fun i => (expected_iteration cfg i.val).count (Effect.toggle_create p))
      (fun i => hcount_t i p)
    simpa [Nat.add_assoc] using hsum
  · intro p
    rw [user_init_registration_eq]
    simp only [List.flatten_cons, List.flatten_nil, List.append_nil, List.count_append]
    have hsum := sum_first_use (fun j => (cfg j).button_gpio) p
      (fun i => (expected_iteration cfg i.val).count (Effect.button_create p))
      (fun i => hcount_b i p)
    simpa [Nat.add_assoc] using hsum
  · intro i p
    rw [hiter i, List.mem_append,
      mem_expected_calls Effect.toggle_create hinj_t (fun j => (cfg j).toggle_gpio) i p]
    constructor
    · rintro (h | h)
      · have hzero := count_expected_calls_other Effect.button_create Effect.toggle_create
          hdiff_bt (fun j => (cfg j).button_gpio) i p
        exact absurd h (List.count_eq_zero.mp hzero)
      · exact h
    · exact fun h => Or.inr h
  · intro i p
    rw [hiter i, List.mem_append,
      mem_expected_calls Effect.button_create hinj_b (fun j => (cfg j).button_gpio) i p]
    constructor
    · rintro (h | h)
      · exact h
      · have hzero := count_expected_calls_other Effect.toggle_create Effect.button_create
          hdiff_tb (fun j => (cfg j).toggle_gpio) i p
        exact absurd h (List.count_eq_zero.mp hzero)
    · exact fun h => Or.inl h

end EspMultichannelToggle
